import Mathlib

/-!
Verification of the two analysis scripts in this repository:

* Pipeline A — `Development_notebooks_BD/Dams/DamBex/scripts/ness_scripts/AppendDamTimeHistoryParallel.py`:
  per-polygon dam-fullness time series extraction (chunk selection, per-timestep
  wet/dry/indeterminate percentages, observation filter, checkpoint read,
  per-polygon exception policy).
* Pipeline B — `ICE_project/SICA_parallel.py`: irrigated-extent classification
  (multi-level threshold, polygon area/class filter, season/year output label).

Every definition below is a shallow embedding of the corresponding Python code.
Counts are `Nat`, exact fractional quantities (percentages, areas, segment
means) are `ℚ`, fallible operations return `Option` or an explicit
exception-or-value type.
-/

namespace DamTimeHistory

/-- `ChunkSize = ceil(len(ShapesList)/32) + 1` (line 56 of
`AppendDamTimeHistoryParallel.py`).  `Nat` ceiling division of `n` by 32 is
`(n + 31) / 32`. -/
def ChunkSize (n : Nat) : Nat := (n + 31) / 32 + 1

/-- Python list slicing `l[a:b]` for non-negative bounds `a ≤ b`: the elements
at positions `a, a+1, …, min b (len l) - 1`. -/
def pySlice (l : List α) (a b : Nat) : List α := (l.drop a).take (b - a)

/-- `shapessubset = shapes[(part - 1) * ChunkSize : part * ChunkSize]`
(line 57).  The script is invoked with a 1-based chunk index `part`
(`part = int(sys.argv[1])`), so only `part ≥ 1` arises; Python's
negative-index slicing semantics is therefore not modelled. -/
def shapessubset (l : List α) (part : Nat) : List α :=
  pySlice l ((part - 1) * ChunkSize l.length) (part * ChunkSize l.length)

/-- Lines 152–153: the main loop calls `FindOutHowFullTheDamIs` once for each
element of `shapessubset`, in order.  The polygons processed by an invocation
with index `part` are exactly the members of this list. -/
def processedPolygons (l : List α) (part : Nat) : List α := shapessubset l part

theorem pySlice_length (l : List α) (a b : Nat) :
    (pySlice l a b).length = min b l.length - a := by
  simp [pySlice]
  omega

theorem pySlice_getElem? (l : List α) (a b j : Nat) :
    (pySlice l a b)[j]? = if a + j < min b l.length then l[a + j]? else none := by
  unfold pySlice
  rw [List.getElem?_take, List.getElem?_drop]
  split
  · split
    · rfl
    · rw [List.getElem?_eq_none]
      omega
  · split
    · omega
    · rfl

/-- Membership in a chunk of the position list `List.range n`: position `x` is
assigned to chunk `part` (1-based) iff `(part-1)*ChunkSize n ≤ x < min (part*ChunkSize n) n`. -/
theorem mem_shapessubset_range {n part x : Nat} (h : 1 ≤ part) :
    x ∈ shapessubset (List.range n) part ↔
      (part - 1) * ChunkSize n ≤ x ∧ x < min (part * ChunkSize n) n := by
  unfold shapessubset
  rw [List.length_range]
  constructor
  · intro hx
    obtain ⟨j, hj⟩ := List.mem_iff_getElem?.mp hx
    rw [pySlice_getElem?, List.length_range] at hj
    by_cases hlt : (part - 1) * ChunkSize n + j < min (part * ChunkSize n) n
    · rw [if_pos hlt] at hj
      rw [List.getElem?_range (by omega)] at hj
      cases hj
      omega
    · rw [if_neg hlt] at hj
      cases hj
  · rintro ⟨h1, h2⟩
    apply List.mem_iff_getElem?.mpr
    refine ⟨x - (part - 1) * ChunkSize n, ?_⟩
    rw [pySlice_getElem?, List.length_range, if_pos (by omega),
      List.getElem?_range (by omega)]
    congr 1
    omega

/-- Concatenating the first `m` chunks yields the first `m * ChunkSize` elements. -/
theorem flatMap_shapessubset (l : List α) (m : Nat) :
    (List.range m).flatMap (fun k => shapessubset l (k + 1))
      = l.take (m * ChunkSize l.length) := by
  induction m with
  | zero => simp
  | succ m ih =>
    rw [List.range_succ, List.flatMap_append, ih]
    have hcs : (m + 1) * ChunkSize l.length - m * ChunkSize l.length
        = ChunkSize l.length := by
      rw [Nat.succ_mul]
      omega
    simp only [List.flatMap_cons, List.flatMap_nil, List.append_nil]
    unfold shapessubset pySlice
    simp only [Nat.add_sub_cancel]
    rw [hcs, ← List.take_add, Nat.succ_mul]

/-- C1: for every polygon count `n ≥ 0` and every 1-based chunk index `i`, the
chunk selector returns the slice of the ordered polygon list with boundaries
`[(i-1)*(ceil(n/32)+1), i*(ceil(n/32)+1))`, clipped to `[0, n)`: its length is
`min (i*ChunkSize) n - (i-1)*ChunkSize` and its `j`-th element is the source
element at position `(i-1)*ChunkSize + j` whenever that position is below the
clipped upper boundary. -/
theorem C1_chunk_selector_boundaries (l : List α) (i : Nat) (h : 1 ≤ i) :
    (shapessubset l i).length
        = min (i * ChunkSize l.length) l.length - (i - 1) * ChunkSize l.length
      ∧ ∀ j, (shapessubset l i)[j]?
        = if (i - 1) * ChunkSize l.length + j < min (i * ChunkSize l.length) l.length
          then l[(i - 1) * ChunkSize l.length + j]? else none := by
  refine ⟨?_, fun j => ?_⟩
  · rw [shapessubset, pySlice_length]
  · rw [shapessubset, pySlice_getElem?]

theorem C1_chunk_selector_boundaries_witness :
    (shapessubset ([5, 6, 7] : List Nat) 1).length
        = min (1 * ChunkSize ([5, 6, 7] : List Nat).length) ([5, 6, 7] : List Nat).length
            - (1 - 1) * ChunkSize ([5, 6, 7] : List Nat).length
      ∧ ∀ j, (shapessubset ([5, 6, 7] : List Nat) 1)[j]?
        = if (1 - 1) * ChunkSize ([5, 6, 7] : List Nat).length + j
              < min (1 * ChunkSize ([5, 6, 7] : List Nat).length) ([5, 6, 7] : List Nat).length
          then ([5, 6, 7] : List Nat)[(1 - 1) * ChunkSize ([5, 6, 7] : List Nat).length + j]?
          else none :=
  C1_chunk_selector_boundaries [5, 6, 7] 1 (by decide)

/-- C2: chunks for distinct 1-based indices occupy disjoint position sets, and
concatenating the chunks for indices 1..32 reproduces the full ordered polygon
list exactly — no element is omitted and none appears twice.  (Coverage holds
because `32 * (ceil(n/32)+1) ≥ n` for every `n`: the fixed fan-out never
leaves a gap, and contiguous slices never overlap.) -/
theorem C2_chunks_disjoint_and_cover (n : Nat) (l : List α) :
    (∀ i j, 1 ≤ i → 1 ≤ j → i ≠ j →
        ∀ x, x ∈ shapessubset (List.range n) i → x ∉ shapessubset (List.range n) j)
    ∧ (List.range 32).flatMap (fun k => shapessubset l (k + 1)) = l := by
  constructor
  · have key : ∀ i j, 1 ≤ i → i < j →
        ∀ x, x ∈ shapessubset (List.range n) i → x ∈ shapessubset (List.range n) j → False := by
      intro i j hi hij x hxi hxj
      rw [mem_shapessubset_range hi] at hxi
      rw [mem_shapessubset_range (by omega)] at hxj
      have hmul : i * ChunkSize n ≤ (j - 1) * ChunkSize n :=
        Nat.mul_le_mul_right _ (by omega)
      omega
    intro i j hi hj hne x hxi hxj
    rcases Nat.lt_or_ge i j with hij | hij
    · exact key i j hi hij x hxi hxj
    · exact key j i hj (by omega) x hxj hxi
  · rw [flatMap_shapessubset]
    apply List.take_of_length_le
    unfold ChunkSize
    omega

theorem C2_chunks_disjoint_and_cover_witness :
    (∀ x, x ∈ shapessubset (List.range 3) 1 → x ∉ shapessubset (List.range 3) 2)
    ∧ (List.range 32).flatMap (fun k => shapessubset ([5, 6, 7] : List Nat) (k + 1))
        = [5, 6, 7] :=
  ⟨(C2_chunks_disjoint_and_cover 3 ([] : List Nat)).1 1 2 (by decide) (by decide) (by decide),
   (C2_chunks_disjoint_and_cover 3 [5, 6, 7]).2⟩

/-- C3 counterexample: with 3 polygons, `ChunkSize = ceil(3/32) + 1 = 2`, so
invoking with chunk index 1 selects the slice `[0, 2)` — the first TWO
polygons — not `[0, 1)` as the claim states. -/
theorem C3_counterexample :
    processedPolygons ([5, 6, 7] : List Nat) 1 = [5, 6] ∧ ([5, 6] : List Nat) ≠ [5] := by
  constructor
  · rfl
  · decide

/-- C3 amended: for a shapefile containing exactly 3 polygons and fan-out 32,
invoking Pipeline A with chunk index 1 processes the first two polygons (the
selected slice is `[0, 2)`, since `ceil(3/32)+1 = 2`). -/
theorem C3_amended_first_chunk (l : List α) (h : l.length = 3) :
    processedPolygons l 1 = l.take 2 := by
  simp [processedPolygons, shapessubset, pySlice, ChunkSize, h]

theorem C3_amended_first_chunk_witness :
    processedPolygons ([5, 6, 7] : List Nat) 1 = ([5, 6, 7] : List Nat).take 2 :=
  C3_amended_first_chunk [5, 6, 7] rfl

/-- Lines 113–120: per-timestep percentage computation.  Counts are the masked
pixel counts `MaskedAll`, `MaskedWet`, `MaskedDry`; a zero total raises
`ZeroDivisionError`, caught locally and replaced by `(0.0, 0.0, 100.0)`.
Returns `(WaterPercent, DryPercent, UnknownPercent)` in exact arithmetic. -/
def percentages (MaskedAll MaskedWet MaskedDry : Nat) : ℚ × ℚ × ℚ :=
  if MaskedAll = 0 then (0, 0, 100)
  else ((MaskedWet : ℚ) / MaskedAll * 100,
        (MaskedDry : ℚ) / MaskedAll * 100,
        ((MaskedAll : ℚ) - ((MaskedWet : ℚ) + (MaskedDry : ℚ))) / MaskedAll * 100)

/-- Line 129: `ValidMask = [i for i, x in enumerate(InvalidObservations) if x < 10]`. -/
def ValidMask (InvalidObservations : List ℚ) : List Nat :=
  (InvalidObservations.enum.filter (fun p => decide (p.2 < 10))).map Prod.fst

/-- C8: for every time slice, if the total masked pixel count is 0 then the
computed percentages are wet% = 0, dry% = 0, indeterminate% = 100; otherwise
(in exact rational arithmetic) wet% + dry% + indeterminate% = 100. -/
theorem C8_percentages_sum (MaskedAll MaskedWet MaskedDry : Nat) :
    (MaskedAll = 0 → percentages MaskedAll MaskedWet MaskedDry = (0, 0, 100))
    ∧ (MaskedAll ≠ 0 →
        (percentages MaskedAll MaskedWet MaskedDry).1
          + (percentages MaskedAll MaskedWet MaskedDry).2.1
          + (percentages MaskedAll MaskedWet MaskedDry).2.2 = 100) := by
  constructor
  · intro h
    simp [percentages, h]
  · intro h
    have hq : (MaskedAll : ℚ) ≠ 0 := Nat.cast_ne_zero.mpr h
    simp only [percentages, if_neg h]
    field_simp
    ring

theorem C8_percentages_sum_witness :
    percentages 0 4 2 = (0, 0, 100)
    ∧ (percentages 5 4 2).1 + (percentages 5 4 2).2.1 + (percentages 5 4 2).2.2 = 100 :=
  ⟨(C8_percentages_sum 0 4 2).1 rfl, (C8_percentages_sum 5 4 2).2 (by decide)⟩

/-- C7: a time slice index is retained by the observation filter iff its
indeterminate percentage is strictly less than 10; in particular an
indeterminate percentage of exactly 10 is excluded. -/
theorem C7_observation_filter (InvalidObservations : List ℚ) (i : Nat) :
    (i ∈ ValidMask InvalidObservations
      ↔ ∃ x, InvalidObservations[i]? = some x ∧ x < 10)
    ∧ ValidMask [10] = [] := by
  constructor
  · unfold ValidMask
    simp only [List.mem_map, List.mem_filter]
    constructor
    · rintro ⟨⟨j, x⟩, ⟨hmem, hx⟩, rfl⟩
      rw [List.mk_mem_enum_iff_getElem?] at hmem
      exact ⟨x, hmem, by simpa using hx⟩
    · rintro ⟨x, hget, hx⟩
      exact ⟨(i, x), ⟨List.mk_mem_enum_iff_getElem?.mpr hget, by simpa using hx⟩, rfl⟩
  · decide

/-- A computation that either raises a Python exception or yields a value. -/
inductive ExnOr (α : Type) where
  | raised : ExnOr α
  | ok : α → ExnOr α
deriving DecidableEq

/-- One timestep of the loaded `wofs_albers` stack: its timestamp (as it will
be printed into `DateList`) and the masked pixel counts of lines 109–111. -/
structure TimeSlice where
  time : String
  MaskedAll : Nat
  MaskedWet : Nat
  MaskedDry : Nat
deriving DecidableEq

/-- A row appended to the polygon's output file: `(date, ValidCapacityCt,
ValidCapacityPc)` (lines 134–141). -/
abbrev Row := String × Nat × ℚ

/-- The external world one call of `FindOutHowFullTheDamIs` interacts with:
* `lastLine` — result of `find_lastline(fname)` (line 85, outside any `try`);
  `raised` models a missing/short checkpoint file;
* `wofl` — result of `dc.load` plus the mask construction (lines 89–96);
  the outer `raised` models a query failure, a `raised` element models a
  library exception while processing that timestep (lines 102–125), other
  than the locally-handled `ZeroDivisionError`;
* `writeFailsAt` — `some j` models an exception inside the `try` block of
  lines 128–143 after `j` rows have already been appended (`j = 0` covers a
  failure before any write); `none` means the block completes. -/
structure DamEnv where
  lastLine : ExnOr String
  wofl : ExnOr (List (ExnOr TimeSlice))
  writeFailsAt : Option Nat

/-- How one polygon's processing ends: an uncaught exception propagates out of
`FindOutHowFullTheDamIs` (terminating the invocation), or the broad `except`
of line 142 catches the error and logs the polygon, or all stages complete. -/
inductive Outcome where
  | uncaught : Outcome
  | caughtLogged : Outcome
  | completed : Outcome
deriving DecidableEq

/-- Python `str.split(',')` on the character list of a string: splits at every
comma, never dropping empty fields. -/
def splitCommaChars : List Char → List (List Char)
  | [] => [[]]
  | c :: rest =>
    match splitCommaChars rest with
    | [] => [[]]
    | cur :: parts => if c = ',' then [] :: cur :: parts else (c :: cur) :: parts

/-- Lines 85–87: `last_date, lastObs = find_lastline(fname).split(',')` then
`from_date = datetime.strptime(last_date, ...)`.  Unpacking raises unless the
split has exactly two fields; `strptime` is the external parser. -/
def readCheckpoint (strptime : String → ExnOr String) (line : String) : ExnOr String :=
  match (splitCommaChars line.data).map String.mk with
  | [d, _] => strptime d
  | _ => .raised

/-- The per-timestep loop of lines 102–125: the first raising timestep aborts
the whole loop (nothing of it is caught); otherwise all slices are gathered. -/
def collectSlices : List (ExnOr TimeSlice) → ExnOr (List TimeSlice)
  | [] => .ok []
  | .raised :: _ => .raised
  | .ok s :: rest =>
    match collectSlices rest with
    | .raised => .raised
    | .ok l => .ok (s :: l)

/-- Lines 129–135: keep the timesteps whose `UnknownPercent` is below 10 and
zip their dates with wet counts and wet percentages. -/
def validRows (ts : List TimeSlice) : List Row :=
  (ValidMask (ts.map (fun s => (percentages s.MaskedAll s.MaskedWet s.MaskedDry).2.2))).filterMap
    (fun i => (ts[i]?).map
      (fun s => (s.time, s.MaskedWet, (percentages s.MaskedAll s.MaskedWet s.MaskedDry).1)))

/-- Lines 77–143, `FindOutHowFullTheDamIs`: checkpoint read, query, per-timestep
loop, then the `try`-wrapped filter/write section.  Only the last stage is
inside the `try`; an exception anywhere earlier propagates (`Outcome.uncaught`).
The second component is the list of rows actually appended to the polygon's
output file. -/
def FindOutHowFullTheDamIs (strptime : String → ExnOr String) (env : DamEnv) :
    Outcome × List Row :=
  match env.lastLine with
  | .raised => (.uncaught, [])
  | .ok line =>
    match readCheckpoint strptime line with
    | .raised => (.uncaught, [])
    | .ok _fromDate =>
      match env.wofl with
      | .raised => (.uncaught, [])
      | .ok slices =>
        match collectSlices slices with
        | .raised => (.uncaught, [])
        | .ok ts =>
          match env.writeFailsAt with
          | some j => (.caughtLogged, (validRows ts).take j)
          | none => (.completed, validRows ts)

/-- Lines 152–153: the main loop processes the chunk's polygons one at a time;
an uncaught exception terminates the invocation, anything else continues. -/
def runChunk (strptime : String → ExnOr String) : List DamEnv → List (Outcome × List Row)
  | [] => []
  | env :: rest =>
    match FindOutHowFullTheDamIs strptime env with
    | (.uncaught, rows) => [(.uncaught, rows)]
    | r => r :: runChunk strptime rest

/-- C4 counterexample: an exception during the checkpoint read (`lastLine`
raises) is NOT caught — the polygon's processing ends with an uncaught
exception and the invocation does not continue to the next polygon, contrary
to the claim that any exception at any point is caught and skipped. -/
theorem C4_counterexample :
    FindOutHowFullTheDamIs (fun _ => .ok "") ⟨.raised, .ok [], none⟩ = (.uncaught, [])
    ∧ runChunk (fun _ => .ok "")
        [⟨.raised, .ok [], none⟩, ⟨.ok "2000-01-01 00:00:00.0,5", .ok [], none⟩]
        = [(.uncaught, [])]
    ∧ Outcome.uncaught ≠ Outcome.caughtLogged := by
  refine ⟨rfl, rfl, by decide⟩

/-- C4 amended: only exceptions raised inside the filter/write section
(lines 128–141) are caught and logged, with rows appended before the failure
kept (no rollback) and processing continuing with the next polygon;
exceptions during the checkpoint read, the query, or the per-timestep loop
are not caught and abort the invocation. -/
theorem C4_amended_exception_policy :
    (∀ strptime line d slices ts j,
        readCheckpoint strptime line = .ok d → collectSlices slices = .ok ts →
        FindOutHowFullTheDamIs strptime ⟨.ok line, .ok slices, some j⟩
          = (.caughtLogged, (validRows ts).take j))
    ∧ (∀ strptime env es, (FindOutHowFullTheDamIs strptime env).1 ≠ .uncaught →
        runChunk strptime (env :: es)
          = FindOutHowFullTheDamIs strptime env :: runChunk strptime es)
    ∧ (∀ strptime wofl wf,
        FindOutHowFullTheDamIs strptime ⟨.raised, wofl, wf⟩ = (.uncaught, []))
    ∧ (∀ strptime line d wf, readCheckpoint strptime line = .ok d →
        FindOutHowFullTheDamIs strptime ⟨.ok line, .raised, wf⟩ = (.uncaught, []))
    ∧ (∀ strptime line d slices wf,
        readCheckpoint strptime line = .ok d → collectSlices slices = .raised →
        FindOutHowFullTheDamIs strptime ⟨.ok line, .ok slices, wf⟩ = (.uncaught, [])) := by
  refine ⟨?_, ?_, ?_, ?_, ?_⟩
  · intro strptime line d slices ts j h1 h2
    simp only [FindOutHowFullTheDamIs, h1, h2]
  · intro strptime env es hne
    rcases hr : FindOutHowFullTheDamIs strptime env with ⟨o, rows⟩
    cases o with
    | uncaught => exact absurd (by rw [hr]) hne
    | caughtLogged => simp [runChunk, hr]
    | completed => simp [runChunk, hr]
  · intro strptime wofl wf
    rfl
  · intro strptime line d wf h1
    simp only [FindOutHowFullTheDamIs, h1]
  · intro strptime line d slices wf h1 h2
    simp only [FindOutHowFullTheDamIs, h1, h2]

theorem C4_amended_exception_policy_witness :
    FindOutHowFullTheDamIs (fun _ => .ok "") ⟨.ok "2000-01-01 00:00:00.0,5", .ok [], some 0⟩
        = (.caughtLogged, (validRows []).take 0)
    ∧ runChunk (fun _ => .ok "")
        [⟨.ok "2000-01-01 00:00:00.0,5", .ok [], some 0⟩, ⟨.raised, .ok [], none⟩]
        = FindOutHowFullTheDamIs (fun _ => .ok "") ⟨.ok "2000-01-01 00:00:00.0,5", .ok [], some 0⟩
            :: runChunk (fun _ => .ok "") [⟨.raised, .ok [], none⟩]
    ∧ FindOutHowFullTheDamIs (fun _ => .ok "") ⟨.raised, .ok [], none⟩ = (.uncaught, [])
    ∧ FindOutHowFullTheDamIs (fun _ => .ok "") ⟨.ok "2000-01-01 00:00:00.0,5", .raised, none⟩
        = (.uncaught, [])
    ∧ FindOutHowFullTheDamIs (fun _ => .ok "")
          ⟨.ok "2000-01-01 00:00:00.0,5", .ok [.raised], none⟩ = (.uncaught, []) :=
  ⟨C4_amended_exception_policy.1 _ _ "" [] [] 0 rfl rfl,
   C4_amended_exception_policy.2.1 _ _ [⟨.raised, .ok [], none⟩] (by decide),
   C4_amended_exception_policy.2.2.1 _ _ _,
   C4_amended_exception_policy.2.2.2.1 _ _ "" _ rfl,
   C4_amended_exception_policy.2.2.2.2 _ _ "" [.raised] _ rfl rfl⟩

/-- C10: the checkpoint timestamp read from the polygon's output file is
parsed but never used — for any two checkpoint lines that both parse
successfully, processing against the same loaded data and write behaviour
yields the identical outcome and identical appended rows. -/
theorem C10_checkpoint_noninterference
    (strptime : String → ExnOr String) (line1 line2 d1 d2 : String)
    (wofl : ExnOr (List (ExnOr TimeSlice))) (wf : Option Nat)
    (h1 : readCheckpoint strptime line1 = .ok d1)
    (h2 : readCheckpoint strptime line2 = .ok d2) :
    FindOutHowFullTheDamIs strptime ⟨.ok line1, wofl, wf⟩
      = FindOutHowFullTheDamIs strptime ⟨.ok line2, wofl, wf⟩ := by
  simp only [FindOutHowFullTheDamIs, h1, h2]

theorem C10_checkpoint_noninterference_witness :
    FindOutHowFullTheDamIs (fun d => .ok d)
        ⟨.ok "2000-01-01 00:00:00.0,5", .ok [.ok ⟨"2001-02-03", 4, 3, 1⟩], none⟩
      = FindOutHowFullTheDamIs (fun d => .ok d)
        ⟨.ok "2017-12-31 23:59:59.9,80", .ok [.ok ⟨"2001-02-03", 4, 3, 1⟩], none⟩ :=
  C10_checkpoint_noninterference (fun d => .ok d)
    "2000-01-01 00:00:00.0,5" "2017-12-31 23:59:59.9,80"
    "2000-01-01 00:00:00.0" "2017-12-31 23:59:59.9"
    (.ok [.ok ⟨"2001-02-03", 4, 3, 1⟩]) none rfl rfl

end DamTimeHistory

namespace SICA

/-!
Shallow embedding of `ICE_project/SICA_parallel.py` (`irrigated_extent`).
Segment means and polygon areas are modelled as exact rationals; the decimal
literals of the source (`0.8`, `0.70`, …) denote the corresponding exact
rational values.  `np.nan` (the "no data" sentinel of the exported raster)
is modelled as `none`.
-/

/-- Line 84: `a = np.where(segment_means.values>=0.8, 80, segment_means.values)`. -/
def stage_a (v : ℚ) : ℚ := if 0.8 ≤ v then 80 else v

/-- Line 85: `b = np.where((a>=0.70) & (a<0.8), 70, a)`. -/
def stage_b (a : ℚ) : ℚ := if 0.70 ≤ a ∧ a < 0.8 then 70 else a

/-- Line 86: `c = np.where((b>=0.60) & (b<0.70), 60, b)`. -/
def stage_c (b : ℚ) : ℚ := if 0.60 ≤ b ∧ b < 0.70 then 60 else b

/-- Line 87: `d = np.where((c>=0.55) & (c<0.60), 55, c)`. -/
def stage_d (c : ℚ) : ℚ := if 0.55 ≤ c ∧ c < 0.60 then 55 else c

/-- Line 88: `e = np.where(d>=55, d, np.nan)` — the per-pixel value written to
the multithreshold raster. -/
def stage_e (d : ℚ) : Option ℚ := if 55 ≤ d then some d else none

/-- Lines 84–88 composed: the classification applied to one segment mean. -/
def thresholdClassify (v : ℚ) : Option ℚ := stage_e (stage_d (stage_c (stage_b (stage_a v))))

theorem thresholdClassify_band80 {v : ℚ} (h : 0.8 ≤ v) :
    thresholdClassify v = some 80 := by
  have ha : stage_a v = 80 := if_pos h
  rw [thresholdClassify, ha]
  norm_num [stage_b, stage_c, stage_d, stage_e]

theorem thresholdClassify_band70 {v : ℚ} (h1 : 0.70 ≤ v) (h2 : v < 0.8) :
    thresholdClassify v = some 70 := by
  have ha : stage_a v = v := if_neg (not_le.mpr h2)
  have hb : stage_b v = 70 := if_pos ⟨h1, h2⟩
  rw [thresholdClassify, ha, hb]
  norm_num [stage_c, stage_d, stage_e]

theorem thresholdClassify_band60 {v : ℚ} (h1 : 0.60 ≤ v) (h2 : v < 0.70) :
    thresholdClassify v = some 60 := by
  have ha : stage_a v = v := if_neg (not_le.mpr (by linarith))
  have hb : stage_b v = v := if_neg (fun hc => absurd hc.1 (not_le.mpr h2))
  have hc60 : stage_c v = 60 := if_pos ⟨h1, h2⟩
  rw [thresholdClassify, ha, hb, hc60]
  norm_num [stage_d, stage_e]

theorem thresholdClassify_band55 {v : ℚ} (h1 : 0.55 ≤ v) (h2 : v < 0.60) :
    thresholdClassify v = some 55 := by
  have ha : stage_a v = v := if_neg (not_le.mpr (by linarith))
  have hb : stage_b v = v := if_neg (fun hc => absurd hc.1 (not_le.mpr (by linarith)))
  have hc60 : stage_c v = v := if_neg (fun hc => absurd hc.1 (not_le.mpr h2))
  have hd : stage_d v = 55 := if_pos ⟨h1, h2⟩
  rw [thresholdClassify, ha, hb, hc60, hd]
  norm_num [stage_e]

theorem thresholdClassify_nodata {v : ℚ} (h : v < 0.55) :
    thresholdClassify v = none := by
  have ha : stage_a v = v := if_neg (not_le.mpr (by linarith))
  have hb : stage_b v = v := if_neg (fun hc => absurd hc.1 (not_le.mpr (by linarith)))
  have hc60 : stage_c v = v := if_neg (fun hc => absurd hc.1 (not_le.mpr (by linarith)))
  have hd : stage_d v = v := if_neg (fun hc => absurd hc.1 (not_le.mpr h))
  have he : stage_e v = none := if_neg (not_le.mpr (by linarith))
  rw [thresholdClassify, ha, hb, hc60, hd, he]

/-- C5: the Pipeline B threshold mapping sends `v ≥ 0.8` to 80,
`0.70 ≤ v < 0.8` to 70, `0.60 ≤ v < 0.70` to 60, `0.55 ≤ v < 0.60` to 55
(boundary 0.55 included), and `v < 0.55` to the no-data sentinel; in
particular 0.85 → 80, 0.75 → 70, 0.62 → 60, 0.56 → 55, 0.55 → 55 and
0.50 → no-data. -/
theorem C5_threshold_mapping :
    (∀ v : ℚ, thresholdClassify v =
        if 0.8 ≤ v then some 80
        else if 0.70 ≤ v then some 70
        else if 0.60 ≤ v then some 60
        else if 0.55 ≤ v then some 55
        else none)
    ∧ thresholdClassify 0.85 = some 80 ∧ thresholdClassify 0.75 = some 70
    ∧ thresholdClassify 0.62 = some 60 ∧ thresholdClassify 0.56 = some 55
    ∧ thresholdClassify 0.55 = some 55 ∧ thresholdClassify 0.50 = none := by
  have main : ∀ v : ℚ, thresholdClassify v =
      if 0.8 ≤ v then some 80
      else if 0.70 ≤ v then some 70
      else if 0.60 ≤ v then some 60
      else if 0.55 ≤ v then some 55
      else none := by
    intro v
    rcases le_or_lt (0.8 : ℚ) v with h1 | h1
    · rw [if_pos h1, thresholdClassify_band80 h1]
    rw [if_neg (not_le.mpr h1)]
    rcases le_or_lt (0.70 : ℚ) v with h2 | h2
    · rw [if_pos h2, thresholdClassify_band70 h2 h1]
    rw [if_neg (not_le.mpr h2)]
    rcases le_or_lt (0.60 : ℚ) v with h3 | h3
    · rw [if_pos h3, thresholdClassify_band60 h3 h2]
    rw [if_neg (not_le.mpr h3)]
    rcases le_or_lt (0.55 : ℚ) v with h4 | h4
    · rw [if_pos h4, thresholdClassify_band55 h4 h3]
    rw [if_neg (not_le.mpr h4), thresholdClassify_nodata h4]
  refine ⟨main, ?_, ?_, ?_, ?_, ?_, ?_⟩ <;> rw [main] <;> norm_num

/-- A polygonized candidate feature of the multithreshold shapefile: its class
value `DN` and its computed planar area (`gdf['geometry'].area`, assigned to
the `area` column in line 107; line 112's `gdf.area` reads the same planar
area). -/
structure Feature where
  DN : Int
  area : ℚ
deriving DecidableEq

/-- Lines 108–112: `gdf = gdf[gdf['area'] <= 50000000]`, then
`gdf = gdf[gdf.DN==60]`, then `gdf = gdf[gdf.area>100000]`. -/
def filterFeatures (gdf : List Feature) : List Feature :=
  (((gdf.filter (fun f => decide (f.area ≤ 50000000))).filter
      (fun f => decide (f.DN = 60))).filter
    (fun f => decide (100000 < f.area)))

/-- C6: a candidate feature is kept in the final shapefile iff its area is
≤ 50,000,000, its class `DN` is 60, and its area is > 100,000; in particular
a class-60 feature of area 150,000 is retained while a class-60 feature of
area 90,000 and a class-70 feature of area 150,000 are dropped. -/
theorem C6_polygon_filter (gdf : List Feature) (f : Feature) :
    (f ∈ filterFeatures gdf
      ↔ f ∈ gdf ∧ (f.area ≤ 50000000 ∧ f.DN = 60 ∧ 100000 < f.area))
    ∧ filterFeatures [⟨60, 150000⟩] = [⟨60, 150000⟩]
    ∧ filterFeatures [⟨60, 90000⟩] = []
    ∧ filterFeatures [⟨70, 150000⟩] = [] := by
  refine ⟨?_, rfl, rfl, rfl⟩
  unfold filterFeatures
  simp only [List.mem_filter, decide_eq_true_eq]
  tauto

/-- Python `tif[a:b]` string slicing on the character list (non-negative
bounds). -/
def pySliceChars (s : String) (a b : Nat) : List Char := (s.data.drop a).take (b - a)

/-- Python `int(s)` for a plain decimal-digit string, modelling the call
`int(year)` in line 45: `none` models the `ValueError` raised on a
non-numeric slice. -/
def pyIntDigits (s : List Char) : Option Nat :=
  if s.isEmpty then none
  else s.foldl
    (fun acc c =>
      acc.bind (fun n => if c.isDigit then some (10 * n + (c.toNat - 48)) else none))
    (some 0)

/-- Lines 43–50: the season/year label used for the output directory and all
output file names.  For `season = 'Summer'`: `year = tif[13:17]`;
`nextyear = str(int(year) + 1)[2:]`; `year = year + "_" + nextyear`;
`year = season + year`.  For `season = 'Winter'`: `year = season + tif[7:11]`.
(For any other season the script would hit an unbound `year`, modelled as
`none`; `str` of the successor is `Nat.toDigits 10`.) -/
def seasonYearLabel (season : String) (tif : String) : Option String :=
  if season = "Summer" then
    let year := pySliceChars tif 13 17
    (pyIntDigits year).map (fun y =>
      String.mk (season.data ++ (year ++ ['_'] ++ (Nat.toDigits 10 (y + 1)).drop 2)))
  else if season = "Winter" then
    some (String.mk (season.data ++ pySliceChars tif 7 11))
  else none

/-- C9 counterexample: for a Summer raster whose filename carries `"2010"` at
character offset 13, the computed label is `"Summer2010_11"` — the full
four-digit year followed by `_11` — not `"Summer10_11"` as claimed
(`year = tif[13:17] = "2010"` is used whole; only `nextyear` is truncated to
two digits). -/
theorem C9_counterexample :
    seasonYearLabel "Summer" "maxNDVI_SAMDB2010.tif" = some "Summer2010_11"
    ∧ some "Summer2010_11" ≠ some "Summer10_11" := by
  exact ⟨rfl, by decide⟩

/-- C9 amended: a Summer raster whose filename carries the year substring
`"2010"` at character offset 13 produces the output directory label
`"Summer2010_11"` (season, full starting year, underscore, last two digits of
the following year). -/
theorem C9_amended_label (tif : String) (h : pySliceChars tif 13 17 = "2010".data) :
    seasonYearLabel "Summer" tif = some "Summer2010_11" := by
  rw [seasonYearLabel, if_pos rfl, h]
  rfl

theorem C9_amended_label_witness :
    seasonYearLabel "Summer" "maxNDVI_SAMDB2010.tif" = some "Summer2010_11" :=
  C9_amended_label "maxNDVI_SAMDB2010.tif" rfl

end SICA
